import Mathlib

/-!
Verification of the lead scoring and routing logic of the spacifychat
repository (`src/main.py`).  The scorer `calculate_alps_score_manual`,
the tier classifier `determine_lead_temperature` and the router
`assign_agent` are shallowly embedded below.  Calendar dates are
modelled as integer day numbers; the value of `datetime.now().date()`
at call time is an explicit parameter `today`, so the scorer's
dependence on the current date is visible in the model.  The router's
`np.random.choice(agents, p=probabilities)` draw is modelled as a
cumulative-weight selection from a rational draw `u` with
`0 <= u < 1`, the injectable random source.
-/

namespace Spacify

/-- The `user_data` dictionary handed to the scorer.  Each field may be
absent, mirroring the Python `'key' in user_data` presence checks. -/
structure UserData where
  move_in_date : Option Int
  budget : Option String
  nationality : Option String
  area : Option String

/-- Budget lookup table with default, `budget_scores.get(user_data['budget'], 15)`
(main.py lines 283 to 284). -/
def budget_scores (b : String) : Int :=
  if b = "RM 500-700" then 10
  else if b = "RM 700-900" then 18
  else if b = "RM 900-1200" then 22
  else if b = "RM 1200+" then 25
  else 15

/-- Nationality lookup table with default,
`nationality_scores.get(user_data['nationality'], 15)` (main.py lines 289 to 290). -/
def nationality_scores (n : String) : Int :=
  if n = "Malaysia" then 10
  else if n = "China" then 18
  else if n = "India" then 16
  else if n = "Singapore" then 20
  else if n = "Indonesia" then 17
  else if n = "Others" then 15
  else 15

/-- Timeline sub-score from the number of days until move-in
(main.py lines 271 to 278). -/
def timeline_score (days_to_move : Int) : Int :=
  if days_to_move ≤ 7 then 35
  else if days_to_move ≤ 14 then 30
  else if days_to_move ≤ 30 then 20
  else 10

/-- Location sub-score: `6 if 'area' in user_data and user_data['area'] != 'Others'
else 3` (main.py lines 298 to 301). -/
def location_score (area : Option String) : Int :=
  match area with
  | some a => if a ≠ "Others" then 6 else 3
  | none => 3

/-- The manual ALPS scorer, `calculate_alps_score_manual` (main.py lines
264 to 308).  `today` is the value of `datetime.now().date()` at the
time of the call.  Each criterion block is added only when its field is
present, exactly as in the source. -/
def calculate_alps_score_manual (today : Int) (u : UserData) : Int :=
  let score : Int := 0
  let score := score + (match u.move_in_date with
    | some d => timeline_score (d - today)
    | none => 0)
  let score := score + (match u.budget with
    | some b => budget_scores b
    | none => 0)
  let score := score + (match u.nationality with
    | some n => nationality_scores n
    | none => 0)
  let score := score + 8
  let score := score + location_score u.area
  let score := score + 4
  score

/-- The six per-criterion contributions accumulated by
`calculate_alps_score_manual`: the local variables `timeline_score`,
`budget_score`, `nationality_score`, `source_score`, `location_score`
and `convenience_score` of the source, with an absent field
contributing 0 because its block is skipped. -/
structure ScoreBreakdown where
  timeline : Int
  budget : Int
  nationality : Int
  source : Int
  location : Int
  convenience : Int

/-- The breakdown of `calculate_alps_score_manual` into its six
criterion contributions (main.py lines 264 to 308). -/
def alps_breakdown (today : Int) (u : UserData) : ScoreBreakdown where
  timeline := match u.move_in_date with
    | some d => timeline_score (d - today)
    | none => 0
  budget := match u.budget with
    | some b => budget_scores b
    | none => 0
  nationality := match u.nationality with
    | some n => nationality_scores n
    | none => 0
  source := 8
  location := location_score u.area
  convenience := 4

/-- The `model_data is None` fallback branch of `calculate_alps_score_ml`
(main.py lines 253 to 255): it returns the manual total paired with an
empty breakdown dictionary. -/
def calculate_alps_score_ml (today : Int) (u : UserData) : Int × List (String × Int) :=
  (calculate_alps_score_manual today u, [])

/-- The tier classifier `determine_lead_temperature` (main.py lines 796
to 802): it returns the temperature string together with a display
colour. -/
def determine_lead_temperature (score : Int) : String × String :=
  if score ≥ 80 then ("Hot", "#ff4444")
  else if score ≥ 60 then ("Warm", "#ffaa00")
  else ("Cold", "#4444ff")

/-- Cumulative-weight selection: the model of
`np.random.choice(agents, p=probabilities)` given a draw `u` from the
random source.  The entry whose cumulative interval contains `u` is
returned. -/
def weightedChoice : List (String × ℚ) → ℚ → String
  | [], _ => ""
  | (a, p) :: rest, u => if u < p then a else weightedChoice rest (u - p)

/-- Hot-tier routing table of `assign_agent` (main.py lines 808 to 809):
agents `['Sarah', 'John']` with probabilities `[0.65, 0.35]`. -/
def hot_agents_table : List (String × ℚ) :=
  [("Sarah", 13/20), ("John", 7/20)]

/-- Warm-tier routing table of `assign_agent` (main.py lines 813 to 814):
agents `['Sarah', 'John', 'Amy', 'David']` with probabilities
`[0.35, 0.35, 0.15, 0.15]`. -/
def warm_agents_table : List (String × ℚ) :=
  [("Sarah", 7/20), ("John", 7/20), ("Amy", 3/20), ("David", 3/20)]

/-- Cold-tier routing table of `assign_agent` (main.py lines 818 to 819):
agents `['Amy', 'David', 'Lisa', 'Mike', 'Sarah', 'John']` with
probabilities `[0.25, 0.25, 0.20, 0.20, 0.05, 0.05]`. -/
def cold_agents_table : List (String × ℚ) :=
  [("Amy", 1/4), ("David", 1/4), ("Lisa", 1/5), ("Mike", 1/5),
   ("Sarah", 1/20), ("John", 1/20)]

/-- The router `assign_agent` (main.py lines 804 to 820).  `u` is the
draw consumed from the random source.  Any tier other than `'Hot'` and
`'Warm'` takes the final `else` branch, exactly as in the source. -/
def assign_agent (lead_temp : String) (u : ℚ) : String :=
  if lead_temp = "Hot" then weightedChoice hot_agents_table u
  else if lead_temp = "Warm" then weightedChoice warm_agents_table u
  else weightedChoice cold_agents_table u

/-- The `premium_areas` list of the feature-preparation code
(main.py line 135), the only fixed premium-area set in the source. -/
def premium_areas : List String :=
  ["KL City Center", "Mont Kiara", "Bangsar"]

/-- The keys of the `AREAS_CONDOS` dictionary (main.py lines 577 to 599):
the fixed set of areas offered by the chat flow. -/
def areas_condos_keys : List String :=
  ["KL City Center", "Mont Kiara", "Ampang", "Ara Damansara", "Cheras",
   "Petaling Jaya", "Bukit Jalil", "Setapak", "Subang Jaya", "Sentul",
   "Sungai Besi", "Bandar Sri Permaisuri", "Seri Kembangan", "Others"]

/-! Concrete records used by witnesses and counterexamples. -/

/-- A record with every field absent. -/
def u_all_missing : UserData := ⟨none, none, none, none⟩

/-- A record whose only present field is a move-in date at day 10. -/
def u_movein_10 : UserData := ⟨some 10, none, none, none⟩

/-- A record whose only present field is the area `"Atlantis"`,
a string outside every fixed area list of the source. -/
def u_area_atlantis : UserData := ⟨none, none, none, some "Atlantis"⟩

/-- A record whose only present field is an unrecognized nationality. -/
def u_nat_unknown : UserData := ⟨none, none, some "Wakanda", none⟩

/-! Helper lemmas about the sub-scores. -/

theorem timeline_score_bounds (d : Int) :
    10 ≤ timeline_score d ∧ timeline_score d ≤ 35 := by
  unfold timeline_score
  split_ifs <;> norm_num

theorem budget_scores_bounds (b : String) :
    10 ≤ budget_scores b ∧ budget_scores b ≤ 25 := by
  unfold budget_scores
  split_ifs <;> norm_num

theorem nationality_scores_bounds (n : String) :
    10 ≤ nationality_scores n ∧ nationality_scores n ≤ 20 := by
  unfold nationality_scores
  split_ifs <;> norm_num

theorem location_score_bounds (a : Option String) :
    3 ≤ location_score a ∧ location_score a ≤ 6 := by
  cases a with
  | none => simp [location_score]
  | some a =>
    simp only [location_score]
    split_ifs <;> norm_num

/-- The accumulated manual score equals the sum of the six breakdown
components. -/
theorem score_eq_breakdown_sum (today : Int) (u : UserData) :
    calculate_alps_score_manual today u =
      (alps_breakdown today u).timeline + (alps_breakdown today u).budget +
      (alps_breakdown today u).nationality + (alps_breakdown today u).source +
      (alps_breakdown today u).location + (alps_breakdown today u).convenience := by
  obtain ⟨mid, bu, na, ar⟩ := u
  simp only [calculate_alps_score_manual, alps_breakdown]
  cases mid <;> cases bu <;> cases na <;> ring

/-- Bounds on each breakdown component. -/
theorem breakdown_bounds (today : Int) (u : UserData) :
    (0 ≤ (alps_breakdown today u).timeline ∧ (alps_breakdown today u).timeline ≤ 35) ∧
    (0 ≤ (alps_breakdown today u).budget ∧ (alps_breakdown today u).budget ≤ 25) ∧
    (0 ≤ (alps_breakdown today u).nationality ∧ (alps_breakdown today u).nationality ≤ 20) ∧
    (alps_breakdown today u).source = 8 ∧
    (3 ≤ (alps_breakdown today u).location ∧ (alps_breakdown today u).location ≤ 6) ∧
    (alps_breakdown today u).convenience = 4 := by
  obtain ⟨mid, bu, na, ar⟩ := u
  simp only [alps_breakdown]
  refine ⟨?_, ?_, ?_, by trivial, location_score_bounds ar, by trivial⟩
  · cases mid with
    | none => norm_num
    | some d =>
      have h := timeline_score_bounds (d - today)
      exact ⟨by linarith [h.1], h.2⟩
  · cases bu with
    | none => norm_num
    | some b =>
      have h := budget_scores_bounds b
      exact ⟨by linarith [h.1], h.2⟩
  · cases na with
    | none => norm_num
    | some n =>
      have h := nationality_scores_bounds n
      exact ⟨by linarith [h.1], h.2⟩

/-- Tight bounds on the manual total. -/
theorem score_tight_bounds (today : Int) (u : UserData) :
    15 ≤ calculate_alps_score_manual today u ∧
    calculate_alps_score_manual today u ≤ 98 := by
  have hsum := score_eq_breakdown_sum today u
  have hb := breakdown_bounds today u
  obtain ⟨⟨t0, t1⟩, ⟨b0, b1⟩, ⟨n0, n1⟩, hs, ⟨l0, l1⟩, hc⟩ := hb
  constructor <;> rw [hsum] <;> omega

/-- A cumulative-weight draw that lands inside the table picks an entry
of the table whose weight is strictly positive. -/
theorem weightedChoice_mem (table : List (String × ℚ)) :
    ∀ u : ℚ, 0 ≤ u → u < (table.map Prod.snd).sum →
      ∃ p, (weightedChoice table u, p) ∈ table ∧ 0 < p := by
  induction table with
  | nil =>
    intro u h0 hlt
    simp only [List.map_nil, List.sum_nil] at hlt
    exact absurd (lt_of_le_of_lt h0 hlt) (lt_irrefl 0)
  | cons hd tl ih =>
    intro u h0 hlt
    obtain ⟨a, p⟩ := hd
    by_cases hc : u < p
    · refine ⟨p, ?_, lt_of_le_of_lt h0 hc⟩
      simp [weightedChoice, hc]
    · have hp : p ≤ u := not_lt.mp hc
      have h0' : 0 ≤ u - p := by linarith
      have hlt' : u - p < (tl.map Prod.snd).sum := by
        simp only [List.map_cons, List.sum_cons] at hlt
        linarith
      obtain ⟨q, hmem, hq⟩ := ih (u - p) h0' hlt'
      refine ⟨q, ?_, hq⟩
      simp only [weightedChoice, if_neg hc]
      exact List.mem_cons_of_mem _ hmem

/-- Claim C1: for every input attribute record, the manual scorer's
total is in the interval [0, 100]. -/
theorem claim_C1_score_in_0_100 (today : Int) (u : UserData) :
    0 ≤ calculate_alps_score_manual today u ∧
    calculate_alps_score_manual today u ≤ 100 := by
  have h := score_tight_bounds today u
  exact ⟨by linarith [h.1], by linarith [h.2]⟩

/-- Claim C2: the tier classifier is the exact threshold function
(score at least 80 gives Hot, between 60 and 79 gives Warm, at most 59
gives Cold), with the documented boundary values. -/
theorem claim_C2_thresholds (s : Int) :
    (s ≥ 80 → (determine_lead_temperature s).1 = "Hot") ∧
    (60 ≤ s ∧ s ≤ 79 → (determine_lead_temperature s).1 = "Warm") ∧
    (s ≤ 59 → (determine_lead_temperature s).1 = "Cold") ∧
    (determine_lead_temperature 79).1 = "Warm" ∧
    (determine_lead_temperature 80).1 = "Hot" ∧
    (determine_lead_temperature 59).1 = "Cold" ∧
    (determine_lead_temperature 60).1 = "Warm" := by
  refine ⟨?_, ?_, ?_, by decide, by decide, by decide, by decide⟩
  · intro h
    simp only [determine_lead_temperature]
    rw [if_pos h]
  · intro h
    simp only [determine_lead_temperature]
    rw [if_neg (by omega), if_pos (by omega)]
  · intro h
    simp only [determine_lead_temperature]
    rw [if_neg (by omega), if_neg (by omega)]

/-- Witness for claim C2 at the concrete scores 85, 70 and 10. -/
theorem claim_C2_witness :
    (determine_lead_temperature 85).1 = "Hot" ∧
    (determine_lead_temperature 70).1 = "Warm" ∧
    (determine_lead_temperature 10).1 = "Cold" :=
  ⟨(claim_C2_thresholds 85).1 (by norm_num),
   (claim_C2_thresholds 70).2.1 ⟨by norm_num, by norm_num⟩,
   (claim_C2_thresholds 10).2.2.1 (by norm_num)⟩

/-- Claim C3: when the move-in date is present, the timeline sub-score
is 35 for at most 7 days until move-in, 30 for 8 to 14, 20 for 15 to
30, and 10 otherwise. -/
theorem claim_C3_timeline (today : Int) (u : UserData) (d : Int)
    (h : u.move_in_date = some d) :
    (d - today ≤ 7 → (alps_breakdown today u).timeline = 35) ∧
    (7 < d - today → d - today ≤ 14 → (alps_breakdown today u).timeline = 30) ∧
    (14 < d - today → d - today ≤ 30 → (alps_breakdown today u).timeline = 20) ∧
    (30 < d - today → (alps_breakdown today u).timeline = 10) := by
  refine ⟨?_, ?_, ?_, ?_⟩ <;> intros <;>
    simp only [alps_breakdown, h, timeline_score] <;> split_ifs <;> omega

/-- Witness for claim C3: a lead moving in 5 days from day 0 scores 35
on the timeline criterion. -/
theorem claim_C3_witness :
    (alps_breakdown 0 ⟨some 5, none, none, none⟩).timeline = 35 :=
  (claim_C3_timeline 0 ⟨some 5, none, none, none⟩ 5 rfl).1 (by norm_num)

/-- Claim C10: the manual total always lies in [15, 98]; in particular
the scores 99 and 100 are never produced. -/
theorem claim_C10_tight_range (today : Int) (u : UserData) :
    15 ≤ calculate_alps_score_manual today u ∧
    calculate_alps_score_manual today u ≤ 98 ∧
    calculate_alps_score_manual today u ≠ 99 ∧
    calculate_alps_score_manual today u ≠ 100 := by
  have h := score_tight_bounds today u
  exact ⟨h.1, h.2, by omega, by omega⟩

/-- Counterexample to claim C4: the area `"Atlantis"` belongs to no
fixed premium or known area set of the source, yet its location
sub-score is 6, not 3. -/
theorem claim_C4_counterexample :
    "Atlantis" ∉ premium_areas ∧ "Atlantis" ∉ areas_condos_keys ∧
    (alps_breakdown 0 u_area_atlantis).location = 6 := by decide

/-- Claim C4 as amended: when the area field is present, the location
sub-score is 6 exactly when the area differs from the literal string
`"Others"`, and 3 exactly when it equals `"Others"`; no fixed premium
set is consulted. -/
theorem claim_C4_location_rule (today : Int) (u : UserData) (a : String)
    (h : u.area = some a) :
    ((alps_breakdown today u).location = 6 ↔ a ≠ "Others") ∧
    ((alps_breakdown today u).location = 3 ↔ a = "Others") := by
  simp only [alps_breakdown, location_score, h]
  by_cases ho : a = "Others"
  · simp [ho]
  · simp [ho]

/-- Witness for claim C4 at the concrete area `"Atlantis"`. -/
theorem claim_C4_witness :
    (alps_breakdown 0 u_area_atlantis).location = 6 :=
  (claim_C4_location_rule 0 u_area_atlantis "Atlantis" rfl).1.mpr (by decide)

/-- Counterexample to claim C5: the ML scorer's fallback returns an
empty breakdown, whose sum 0 differs from the returned total 15, and
the manual scorer returns no breakdown at all. -/
theorem claim_C5_counterexample :
    ((calculate_alps_score_ml 0 u_all_missing).2.map Prod.snd).sum = 0 ∧
    (calculate_alps_score_ml 0 u_all_missing).1 = 15 ∧
    ((calculate_alps_score_ml 0 u_all_missing).2.map Prod.snd).sum ≠
      (calculate_alps_score_ml 0 u_all_missing).1 := by decide

/-- Claim C5 as amended: the manual scorer returns only the total, and
that total equals the sum of the six internal criterion contributions,
each bounded by its criterion's maximum weight. -/
theorem claim_C5_breakdown_sum (today : Int) (u : UserData) :
    calculate_alps_score_manual today u =
      (alps_breakdown today u).timeline + (alps_breakdown today u).budget +
      (alps_breakdown today u).nationality + (alps_breakdown today u).source +
      (alps_breakdown today u).location + (alps_breakdown today u).convenience ∧
    (alps_breakdown today u).timeline ≤ 35 ∧
    (alps_breakdown today u).budget ≤ 25 ∧
    (alps_breakdown today u).nationality ≤ 20 ∧
    (alps_breakdown today u).source ≤ 10 ∧
    (alps_breakdown today u).location ≤ 6 ∧
    (alps_breakdown today u).convenience ≤ 4 := by
  obtain ⟨⟨_, t1⟩, ⟨_, b1⟩, ⟨_, n1⟩, hs, ⟨_, l1⟩, hc⟩ := breakdown_bounds today u
  exact ⟨score_eq_breakdown_sum today u, t1, b1, n1, by omega, l1, by omega⟩

/-- Counterexample to claim C6: with the nationality field absent, the
nationality contribution is 0, not the documented default 15 (the total
is 15 only because of the other criteria). -/
theorem claim_C6_counterexample :
    (alps_breakdown 0 u_all_missing).nationality ≠ 15 ∧
    (alps_breakdown 0 u_all_missing).nationality = 0 ∧
    calculate_alps_score_manual 0 u_all_missing = 15 := by decide

/-- Claim C6 as amended: the scorer never fails on a missing
nationality, but a missing nationality contributes 0 (its block is
skipped); the default sub-score 15 applies only when the nationality is
present and not in the lookup table. -/
theorem claim_C6_missing_nationality (today : Int) (u : UserData) :
    (u.nationality = none → (alps_breakdown today u).nationality = 0) ∧
    (∀ n, u.nationality = some n →
      n ∉ (["Malaysia", "China", "India", "Singapore", "Indonesia", "Others"] :
        List String) →
      (alps_breakdown today u).nationality = 15) := by
  constructor
  · intro h
    simp [alps_breakdown, h]
  · intro n hn hnot
    simp only [List.mem_cons, List.not_mem_nil, or_false, not_or] at hnot
    obtain ⟨h1, h2, h3, h4, h5, h6⟩ := hnot
    simp [alps_breakdown, hn, nationality_scores, h1, h2, h3, h4, h5, h6]

/-- Witness for claim C6: a record with no nationality contributes 0,
and a record with the unrecognized nationality `"Wakanda"` gets the
default 15. -/
theorem claim_C6_witness :
    (alps_breakdown 0 u_all_missing).nationality = 0 ∧
    (alps_breakdown 0 u_nat_unknown).nationality = 15 :=
  ⟨(claim_C6_missing_nationality 0 u_all_missing).1 rfl,
   (claim_C6_missing_nationality 0 u_nat_unknown).2 "Wakanda" rfl (by decide)⟩

/-- Counterexample to claim C7: the classifier silently maps the
out-of-range scores 150 and -5 to tiers, and the router silently draws
an agent from the Cold table for the invalid tier `"Banana"`; no
invalid-argument error is signalled anywhere. -/
theorem claim_C7_counterexample :
    (determine_lead_temperature 150).1 = "Hot" ∧
    (determine_lead_temperature (-5)).1 = "Cold" ∧
    assign_agent "Banana" 0 = "Amy" := by
  refine ⟨by decide, by decide, ?_⟩
  have h : (0 : ℚ) < 1/4 := by norm_num
  simp [assign_agent, cold_agents_table, weightedChoice, h]

/-- Claim C7 as amended: scores outside [0, 100] are classified by the
same thresholds without any error, and every tier value other than
`"Hot"` and `"Warm"` falls through to the Cold branch of the router. -/
theorem claim_C7_no_error (s : Int) (t : String) (u : ℚ)
    (h1 : t ≠ "Hot") (h2 : t ≠ "Warm") :
    (s ≥ 80 → (determine_lead_temperature s).1 = "Hot") ∧
    (s < 60 → (determine_lead_temperature s).1 = "Cold") ∧
    assign_agent t u = weightedChoice cold_agents_table u := by
  refine ⟨?_, ?_, ?_⟩
  · intro h
    simp only [determine_lead_temperature]
    rw [if_pos h]
  · intro h
    simp only [determine_lead_temperature]
    rw [if_neg (by omega), if_neg (by omega)]
  · simp only [assign_agent, if_neg h1, if_neg h2]

/-- Witness for claim C7 at score 150 and tier `"Banana"`. -/
theorem claim_C7_witness :
    (determine_lead_temperature 150).1 = "Hot" ∧
    assign_agent "Banana" (0 : ℚ) = weightedChoice cold_agents_table 0 :=
  ⟨(claim_C7_no_error 150 "Banana" 0 (by decide) (by decide)).1 (by norm_num),
   (claim_C7_no_error 150 "Banana" 0 (by decide) (by decide)).2.2⟩

/-- Claim C8: for every draw in [0, 1), the Hot tier routes to one of
the two top performers only, and the Cold tier routes to a member of
Cold's configured table, always one carrying strictly positive weight
(the top performers appear there with residual weight 1/20). -/
theorem claim_C8_routing_domain (u : ℚ) (h0 : 0 ≤ u) (h1 : u < 1) :
    (assign_agent "Hot" u = "Sarah" ∨ assign_agent "Hot" u = "John") ∧
    assign_agent "Cold" u ∈
      (["Amy", "David", "Lisa", "Mike", "Sarah", "John"] : List String) ∧
    (∃ p, (assign_agent "Cold" u, p) ∈ cold_agents_table ∧ 0 < p) := by
  have hhot : assign_agent "Hot" u = weightedChoice hot_agents_table u := by
    simp [assign_agent]
  have hcold : assign_agent "Cold" u = weightedChoice cold_agents_table u := by
    simp [assign_agent]
  have hsum_hot : (hot_agents_table.map Prod.snd).sum = 1 := by
    simp [hot_agents_table]
    norm_num
  have hsum_cold : (cold_agents_table.map Prod.snd).sum = 1 := by
    simp [cold_agents_table]
    norm_num
  have hm1 := weightedChoice_mem hot_agents_table u h0 (by rw [hsum_hot]; exact h1)
  have hm2 := weightedChoice_mem cold_agents_table u h0 (by rw [hsum_cold]; exact h1)
  refine ⟨?_, ?_, ?_⟩
  · obtain ⟨p, hmem, _⟩ := hm1
    rw [hhot]
    simp only [hot_agents_table, List.mem_cons, List.not_mem_nil, or_false,
      Prod.mk.injEq] at hmem
    rcases hmem with ⟨h, _⟩ | ⟨h, _⟩
    · exact Or.inl h
    · exact Or.inr h
  · obtain ⟨p, hmem, _⟩ := hm2
    have hmap := List.mem_map_of_mem Prod.fst hmem
    rw [hcold]
    simpa [cold_agents_table] using hmap
  · rw [hcold]
    exact hm2

/-- Witness for claim C8 at the draw 0. -/
theorem claim_C8_witness :
    (assign_agent "Hot" 0 = "Sarah" ∨ assign_agent "Hot" 0 = "John") ∧
    assign_agent "Cold" 0 ∈
      (["Amy", "David", "Lisa", "Mike", "Sarah", "John"] : List String) ∧
    (∃ p, (assign_agent "Cold" 0, p) ∈ cold_agents_table ∧ 0 < p) :=
  claim_C8_routing_domain 0 (by norm_num) (by norm_num)

/-- Counterexample to claim C9: the same attribute record scores 35
when evaluated on day 0 but 50 when evaluated on day 9, because the
timeline criterion reads the current date. -/
theorem claim_C9_counterexample :
    calculate_alps_score_manual 0 u_movein_10 ≠
      calculate_alps_score_manual 9 u_movein_10 := by decide

/-- Claim C9 as amended: the scorer is deterministic and
side-effect-free given the current date as an explicit input; the
result is independent of the date when the move-in date is absent, and
otherwise depends on the date only through the number of days until
move-in. -/
theorem claim_C9_date_dependence (t t' : Int) (u : UserData) :
    calculate_alps_score_manual t u = calculate_alps_score_manual t u ∧
    (u.move_in_date = none →
      calculate_alps_score_manual t u = calculate_alps_score_manual t' u) ∧
    (∀ d, u.move_in_date = some d → d - t = d - t' →
      calculate_alps_score_manual t u = calculate_alps_score_manual t' u) := by
  refine ⟨rfl, ?_, ?_⟩
  · intro h
    simp [calculate_alps_score_manual, h]
  · intro d hd heq
    simp only [calculate_alps_score_manual, hd]
    rw [heq]

/-- Witness for claim C9: the all-absent record scores identically on
day 0 and day 99. -/
theorem claim_C9_witness :
    calculate_alps_score_manual 0 u_all_missing =
      calculate_alps_score_manual 99 u_all_missing :=
  (claim_C9_date_dependence 0 99 u_all_missing).2.1 rfl

end Spacify
